import Mathlib

/-!
# js-module: module resolution, reconfiguration and invocation

A shallow embedding of `modules/resolver.go` (`Resolver.Resolve`, `fetch`) and of
`components/eval/eval.go` (`Component.Handle`, `Component.init`).

Calls that leave the repository (the script engine, `net/http`, `io/fs`, the
downstream port callback) are parameters of the embedding: a record of functions
that the embedded code calls at the places where the source calls them.
Effects are made explicit: the resolver threads a `World` holding the trace of
source-provider and parser calls, and `Handle` returns the list of messages it
emitted together with its return value.
-/

set_option autoImplicit false
set_option linter.dupNamespace false

namespace JsModule

/-! ## Go values that cross the boundary -/

/-- A Go `error` value.  `errorf` is what `fmt.Errorf` builds without `%w`;
`wrapf` is what it builds with `%w` (the formatted text and the wrapped cause);
`foreign` is an error made outside this repository (transport, file system,
parser, engine exception). -/
inductive GoError where
  | errorf (text : String)
  | wrapf (text : String) (cause : GoError)
  | foreign (id : Nat) (text : String)
  deriving DecidableEq, Repr

/-- The `Error()` method. -/
def GoError.Error : GoError → String
  | .errorf t => t
  | .wrapf t _ => t
  | .foreign _ t => t

/-- Outcome of a Go call that may end in a run-time panic. -/
inductive Run (α : Type) where
  | ret (a : α)
  | panic (why : String)
  deriving Repr

/-- A `context.Context`, as far as its deadline goes: the clock reading (in
milliseconds) at which it expires, if it has one. -/
structure Ctx where
  deadline : Option Nat
  deriving DecidableEq, Repr

/-- `context.WithTimeout(parent, d)` called when the clock reads `now`. -/
def Ctx.WithTimeout (parent : Ctx) (now d : Nat) : Ctx :=
  match parent.deadline with
  | some t => { deadline := some (min t (now + d)) }
  | none => { deadline := some (now + d) }

/-! ## The script engine boundary (`github.com/grafana/sobek`) -/

inductive PromiseState where
  | Pending
  | Fulfilled
  | Rejected
  deriving DecidableEq, Repr

/-- An engine value (`sobek.Value`).  `goNil` is the nil interface value, which
is what `Promise.Result()` yields while the promise is pending. -/
inductive Value where
  | goNil
  | undefined
  | null
  | string (s : String)
  | number (n : Int)
  | goError (e : GoError)
  | object (id : Nat)
  | promise (state : PromiseState) (result : Value)
  deriving DecidableEq, Repr

/-- A Go value of static type `any`, by dynamic type.  `promise` is a
`*sobek.Promise`, with what its `State()` and `Result()` return. -/
inductive GoAny where
  | nil
  | string (s : String)
  | int64 (n : Int)
  | error (e : GoError)
  | other (id : Nat)
  | promise (state : PromiseState) (result : Value)
  deriving DecidableEq, Repr

/-- The method `Value.Export()`; `none` when the receiver is the nil interface
(the call then panics). -/
def Value.Export : Value → Option GoAny
  | .goNil => none
  | .undefined => some .nil
  | .null => some .nil
  | .string s => some (.string s)
  | .number n => some (.int64 n)
  | .goError e => some (.error e)
  | .object id => some (.other id)
  | .promise st r => some (.promise st r)

/-- The text `fmt` produces for one operand under the verb `%s`: a string is
printed as it is, an error through `Error()`; `fallback` prints the rest. -/
def Sprintf_s (fallback : GoAny → String) : GoAny → String
  | .string s => s
  | .error e => e.Error
  | a => fallback a

/-- The type `sobek.Callable`: receiver, arguments, result or error. -/
abbrev Callable := Value → List Value → Except GoError Value

/-- The record `ModuleVU` of `modules/vu.go`; the runtime is held by address. -/
structure ModuleVU where
  ctx : Ctx
  runtime : Nat
  deriving DecidableEq, Repr

/-- The state of a `*sobek.Runtime` as far as this repository touches it: its
address and the global property `vubox`. -/
structure Runtime where
  addr : Nat
  vubox : Option ModuleVU
  deriving DecidableEq, Repr

def NewModuleVU (ctx : Ctx) (runtime : Runtime) : ModuleVU :=
  { ctx := ctx, runtime := runtime.addr }

def ModuleVU.Context (m : ModuleVU) : Ctx := m.ctx

/-! ## `modules/resolver.go`: remote fetch -/

/-- What `http.Client.Do` hands back: the status code and the body stream, the
latter represented by what `io.ReadAll` makes of it. -/
structure http.Response where
  StatusCode : Int
  Body : Except GoError String

/-- The parts of `net/http` that `fetch` calls.  `Do` takes the number of effects
performed so far, so that the network may answer differently each time. -/
structure http.Client where
  NewRequest : String → Option GoError
  Do : Nat → String → Except GoError http.Response

def http.StatusOK : Int := 200
def http.StatusNotFound : Int := 404

/-- The part of `fetch` that runs once `Do` has returned a response. -/
def fetchResponse (u : String) (res : http.Response) : Except GoError String :=
  if res.StatusCode ≠ http.StatusOK then
    if res.StatusCode = http.StatusNotFound then
      .error (.errorf ("not found: " ++ u))
    else
      .error (.errorf ("wrong status code (" ++ toString res.StatusCode ++ ") for: " ++ u))
  else
    match res.Body with
    | .error err => .error err
    | .ok data => .ok data

/-- `fetch(ctx, u)`. -/
def fetch (client : http.Client) (now : Nat) (u : String) : Except GoError String :=
  match client.NewRequest u with
  | some err => .error err
  | none =>
    match client.Do now u with
    | .error err => .error err
    | .ok res => fetchResponse u res

/-! ## `lib/modules.go` and the module records -/

/-- A host module (`lib.Module`): an interface value, known by its identity. -/
structure Module where
  id : Nat
  deriving DecidableEq, Repr

/-- The record `&goModule{m: builtInModule}`: the wrapped module and the address
of the freshly allocated wrapper. -/
structure goModule where
  m : Module
  addr : Nat
  deriving DecidableEq, Repr

/-- A `*sobek.SourceTextModuleRecord`, known by its address. -/
structure SourceTextModuleRecord where
  addr : Nat
  deriving DecidableEq, Repr

/-- The interface `sobek.ModuleRecord` with the two dynamic types used here. -/
inductive ModuleRecord where
  | goModule (g : goModule)
  | sourceText (p : SourceTextModuleRecord)
  deriving DecidableEq, Repr

/-! ## `modules/resolver.go`: the resolver -/

structure cacheElement where
  m : Option ModuleRecord
  err : Option GoError
  deriving DecidableEq, Repr

/-- The calls `Resolve` makes outside the cache. -/
inductive Effect where
  | readFile (name : String)
  | fetch (u : String)
  | parse (name : String)
  deriving DecidableEq, Repr

/-- The specifier an effect is about. -/
def Effect.specifier : Effect → String
  | .readFile n => n
  | .fetch u => u
  | .parse n => n

/-- True of the two source-provider effects. -/
def Effect.isSource : Effect → Bool
  | .readFile _ => true
  | .fetch _ => true
  | .parse _ => false

/-- What lies outside the resolver: the trace of effects performed so far, in
order, and the next free address of the allocator. -/
structure World where
  trace : List Effect
  heap : Nat
  deriving DecidableEq, Repr

/-- The clock seen by the outside functions: the number of effects so far. -/
def World.now (w : World) : Nat := w.trace.length

def World.record (w : World) (e : Effect) : World :=
  { w with trace := w.trace ++ [e] }

/-- The functions outside the repository that `Resolve` calls: `net/http` and
`sobek.ParseModule` (specifier and source text; the resolver callback it is
given is only stored, and whatever the parser does with the source-map loader
is part of its answer). -/
structure Host where
  http : http.Client
  ParseModule : Nat → String → String → Except GoError SourceTextModuleRecord

/-- A file system (`fs.FS`) as seen through `fs.ReadFile`. -/
abbrev FS := Nat → String → Except GoError String

structure Resolver where
  cache : String → Option cacheElement
  goModules : String → Option Module
  fs : FS

/-- The assignment `s.cache[specifier] = e`. -/
def Resolver.store (s : Resolver) (specifier : String) (e : cacheElement) : Resolver :=
  { s with cache := fun k => if k = specifier then some e else s.cache k }

/-- `NewResolver(fs, goModules, vu)`, where `rt` is the runtime `vu.Runtime()`
points to: the resolver with an empty cache, and the runtime with its global
`vubox` defined. -/
def NewResolver (fs : FS) (goModules : String → Option Module) (vu : ModuleVU)
    (rt : Runtime) : Resolver × Runtime :=
  ({ cache := fun _ => none, goModules := goModules, fs := fs }, { rt with vubox := some vu })

/-- `strings.HasPrefix`, character by character (for the ASCII argument used
here this is the byte-wise test of the source). -/
def HasPrefix (s pre : String) : Bool := pre.toList.isPrefixOf s.toList

/-- `Resolver.Resolve(_, specifier)`: the returned pair, the resolver and the
world afterwards. -/
def Resolver.Resolve (host : Host) (s : Resolver) (w : World) (specifier : String) :
    (Option ModuleRecord × Option GoError) × Resolver × World :=
  match s.cache specifier with
  | some k => ((k.m, k.err), s, w)
  | none =>
    match s.goModules specifier with
    | some builtInModule =>
      let modRecord := ModuleRecord.goModule { m := builtInModule, addr := w.heap }
      ((some modRecord, none),
        s.store specifier { m := some modRecord, err := none },
        { w with heap := w.heap + 1 })
    | none =>
      let got : Except GoError String × World :=
        if HasPrefix specifier "http://" || HasPrefix specifier "https://" then
          (fetch host.http w.now specifier, w.record (.fetch specifier))
        else
          (s.fs w.now specifier, w.record (.readFile specifier))
      match got.1 with
      | .error err =>
        ((none, some err), s.store specifier { m := none, err := some err }, got.2)
      | .ok b =>
        match host.ParseModule got.2.now specifier b with
        | .error err =>
          ((none, some err), s.store specifier { m := none, err := some err },
            got.2.record (.parse specifier))
        | .ok p =>
          let modRecord := ModuleRecord.sourceText p
          ((some modRecord, none),
            s.store specifier { m := some modRecord, err := none },
            got.2.record (.parse specifier))

/-- A run of `Resolve` calls, one per listed specifier, results dropped. -/
def Resolver.resolveAll (host : Host) (s : Resolver) (w : World) :
    List String → Resolver × World
  | [] => (s, w)
  | x :: xs =>
    let r := s.Resolve host w x
    Resolver.resolveAll host r.2.1 r.2.2 xs

/-- The effects of a trace that are about `specifier`. -/
def effectsFor (specifier : String) (trace : List Effect) : List Effect :=
  trace.filter (fun e => e.specifier = specifier)

/-- How many source-provider calls (file read or remote fetch) a trace holds
for `specifier`. -/
def sourceCount (specifier : String) (trace : List Effect) : Nat :=
  ((effectsFor specifier trace).filter Effect.isSource).length

/-- How many parser calls a trace holds for `specifier`. -/
def parseCount (specifier : String) (trace : List Effect) : Nat :=
  ((effectsFor specifier trace).filter (fun e => !e.isSource)).length

/-- The state of a resolver session agrees with its trace: a specifier that is
not cached has no effect in the trace, no specifier has more than one
source-provider call or more than one parser call, and a cached specifier that
is not built in has exactly one source-provider call. -/
def SessionInv (s : Resolver) (w : World) : Prop :=
  ∀ x, (s.cache x = none → effectsFor x w.trace = []) ∧
    sourceCount x w.trace ≤ 1 ∧ parseCount x w.trace ≤ 1 ∧
    (s.cache x ≠ none → s.goModules x = none → sourceCount x w.trace = 1)

/-! ## `components/eval/eval.go` -/

def RequestPort : String := "request"
def ResponsePort : String := "response"
def ErrorPort : String := "error"

def mainModule : String := "main.js"
def defaultExport : String := "default"

/-- The package variable `goModules`, an empty map that nothing writes to. -/
def goModules : String → Option Module := fun _ => none

structure Script where
  Name : String
  Content : String
  deriving DecidableEq, Repr

abbrev ScriptItem := Script

structure Settings where
  EnableErrorPort : Bool
  OutputData : GoAny
  Script : Script
  Modules : List ScriptItem
  deriving DecidableEq, Repr

structure Error where
  Context : GoAny
  Error : String
  deriving DecidableEq, Repr

structure Request where
  Context : GoAny
  InputData : GoAny
  deriving DecidableEq, Repr

structure Response where
  Context : GoAny
  OutputData : GoAny
  deriving DecidableEq, Repr

structure Component where
  settings : Settings
  handler : Option Callable
  runtime : Option Runtime

/-- The argument `msg interface{}` of `Handle`, by dynamic type. -/
inductive Msg where
  | settings (s : Settings)
  | request (r : Request)
  | other (a : GoAny)

/-- The data `Handle` sends downstream, by dynamic type. -/
inductive Data where
  | response (r : Response)
  | error (e : Error)
  deriving DecidableEq, Repr

/-- The downstream callback `module.Handler`. -/
abbrev Handler := Ctx → String → Data → GoAny

/-- A result together with the time the call took, in milliseconds. -/
structure Timed (α : Type) where
  val : α
  millis : Nat

/-- A Go map from file name to file content (`fstest.MapFS`). -/
@[reducible] def MapFS : Type := String → Option String

/-- The empty map `make(fstest.MapFS)`. -/
def MapFS.make : MapFS := fun _ => none

/-- The assignment `m[name] = &fstest.MapFile{Data: []byte(data)}`. -/
def MapFS.set (m : MapFS) (name data : String) : MapFS :=
  fun k => if k = name then some data else m k

/-- The virtual source tree `init` builds from the settings. -/
def buildMapFS (s : Settings) : MapFS :=
  MapFS.set (s.Modules.foldl (fun m script => MapFS.set m script.Name script.Content) MapFS.make)
    mainModule s.Script.Content

/-- What lies outside the component during one call of `Handle`: the constant
`v1alpha1.SettingsPort` (a `switch` with two equal cases does not compile, hence
the second field), the engine, `fs.ReadFile` on a `MapFS`, and the host of the
resolver. -/
structure Env where
  SettingsPort : String
  settingsPort_ne : SettingsPort ≠ RequestPort
  New : Runtime
  ToValue : Runtime → GoAny → Value
  ReadFile : MapFS → String → Except GoError String
  host : Host
  Link : SourceTextModuleRecord → Timed (Option GoError)
  CyclicModuleRecordEvaluate : Runtime → SourceTextModuleRecord → Timed (PromiseState × Value)
  GetBindingValue : Runtime → SourceTextModuleRecord → String → Run Value
  AssertFunction : Value → Option Callable
  fallback : GoAny → String

/-- What `init` leaves behind: the component, the returned error, and the clock
reading at return. -/
structure InitResult where
  h : Component
  err : Option GoError
  clock : Nat

/-- `Component.init(ctx, s)`, entered when the clock reads `now`. -/
def Component.init (env : Env) (now : Nat) (h : Component) (ctx : Ctx) (s : Settings) :
    Run InitResult :=
  if s.Script.Content = "" then
    .ret { h := h, err := some (.errorf "empty script"), clock := now }
  else
    let mapFS := buildMapFS s
    let vm := env.New
    let ctx := ctx.WithTimeout now 15000
    let vu := NewModuleVU ctx vm
    let made := NewResolver (fun _ name => env.ReadFile mapFS name) goModules vu vm
    let r := made.1
    let vm := made.2
    let res := r.Resolve env.host { trace := [], heap := 0 } mainModule
    match res.1.2 with
    | some err => .ret { h := h, err := some err, clock := now }
    | none =>
      match res.1.1 with
      | some (.sourceText p) =>
        let linked := env.Link p
        match linked.val with
        | some err =>
          .ret { h := h
                 err := some (.wrapf ("failed to link source text: " ++ err.Error) err)
                 clock := now + linked.millis }
        | none =>
          let promise := env.CyclicModuleRecordEvaluate vm p
          let clock := now + linked.millis + promise.millis
          if promise.val.1 ≠ PromiseState.Fulfilled then
            match promise.val.2.Export with
            | some (.error err) =>
              .ret { h := h
                     err := some (.wrapf ("failed to evaluate promise: " ++ err.Error) err)
                     clock := clock }
            | some _ => .panic "interface conversion: interface \x7b\x7d is not error"
            | none => .panic "invalid memory address or nil pointer dereference"
          else
            match env.GetBindingValue vm p defaultExport with
            | .panic why => .panic why
            | .ret val =>
              match env.AssertFunction val with
              | none =>
                .ret { h := h
                       err := some (.errorf "failed to assert default export function")
                       clock := clock }
              | some fn =>
                .ret { h := { h with handler := some fn, runtime := some vm }
                       err := none
                       clock := clock }
      | _ => .panic "interface conversion: sobek.ModuleRecord is not *sobek.SourceTextModuleRecord"

/-- What one call of `Handle` does: the component afterwards, the messages sent
downstream in order (port and data), and the returned value. -/
structure Handled where
  h : Component
  sent : List (String × Data)
  ret : GoAny

/-- `Component.Handle(ctx, handler, port, msg)`, entered when the clock reads
`now`.  The dump of the error on standard output is not part of the result. -/
def Component.Handle (env : Env) (now : Nat) (h : Component) (ctx : Ctx) (handler : Handler)
    (port : String) (msg : Msg) : Run Handled :=
  if port = env.SettingsPort then
    match msg with
    | .settings s =>
      let h := { h with settings := s }
      match h.init env now ctx s with
      | .panic why => .panic why
      | .ret r =>
        match r.err with
        | some err => .ret { h := r.h, sent := [], ret := .error err }
        | none => .ret { h := r.h, sent := [], ret := .nil }
    | _ => .ret { h := h, sent := [], ret := .error (.errorf "invalid settings") }
  else if port = RequestPort then
    match msg with
    | .request req =>
      match h.handler with
      | none => .ret { h := h, sent := [], ret := .error (.errorf "handler is not initialised") }
      | some fn =>
        match h.runtime with
        | none => .panic "invalid memory address or nil pointer dereference"
        | some rt =>
          match fn .undefined [env.ToValue rt req.InputData] with
          | .error err =>
            if !h.settings.EnableErrorPort then
              .ret { h := h, sent := [], ret := .error err }
            else
              let data := Data.error { Context := req.Context, Error := err.Error }
              .ret { h := h, sent := [(ErrorPort, data)], ret := handler ctx ErrorPort data }
          | .ok res =>
            match res.Export with
            | none => .panic "invalid memory address or nil pointer dereference"
            | some (.promise state result) =>
              if state ≠ PromiseState.Fulfilled then
                match result.Export with
                | none => .panic "invalid memory address or nil pointer dereference"
                | some reason =>
                  .ret { h := h, sent := []
                         ret := .error (.errorf (Sprintf_s env.fallback reason)) }
              else
                match result.Export with
                | none => .panic "invalid memory address or nil pointer dereference"
                | some out =>
                  let data := Data.response { Context := req.Context, OutputData := out }
                  .ret { h := h, sent := [(ResponsePort, data)]
                         ret := handler ctx ResponsePort data }
            | some out =>
              let data := Data.response { Context := req.Context, OutputData := out }
              .ret { h := h, sent := [(ResponsePort, data)], ret := handler ctx ResponsePort data }
    | _ => .ret { h := h, sent := [], ret := .error (.errorf "invalid input") }
  else
    .ret { h := h, sent := []
           ret := .error (.errorf ("port " ++ port ++ " is not supoprted")) }

def defaultEngineSettings : Settings :=
  { EnableErrorPort := false
    OutputData := .nil
    Script :=
      { Name := mainModule
        Content := "import \x7blodash\x7d from \"https://cdn.jsdelivr.net/npm/@esm-bundle/lodash@4.17.21/+esm\";\nimport \x7btypeOf\x7d from \"utils.js\";\nexport default function(inp) \x7b\n  return lodash.isFunction(typeOf) + typeOf(inp)\n\x7d" }
    Modules :=
      [{ Name := "utils.js", Content := "export function typeOf(input) \x7breturn typeof input\x7d" }] }

/-- `Component.Instance()`: a component with the default settings and neither
handler nor runtime. -/
def Component.Instance : Component :=
  { settings := defaultEngineSettings, handler := none, runtime := none }

/-- A value under `depth` fulfilled promises. -/
def fulfilledNest : Nat → Value → Value
  | 0, v => v
  | n + 1, v => .promise .Fulfilled (fulfilledNest n v)

/-- The outcome of a reconfiguration that failed with `err`: the call returns
`err`, sends nothing, and the handler and the runtime are those of the component
`h` before the call. -/
def FailedWith (h : Component) (after : Run Handled) (err : GoError) : Prop :=
  ∃ res, after = .ret res ∧ res.ret = .error err ∧ res.sent = [] ∧
    res.h.handler = h.handler ∧ res.h.runtime = h.runtime

/-! ## Sample inputs -/

namespace Sample

/-- A network that answers every GET with status 200 and a one-line module. -/
def client : http.Client :=
  { NewRequest := fun _ => none
    Do := fun _ _ => .ok { StatusCode := 200, Body := .ok "export default 1" } }

/-- A network that answers every GET with status 404. -/
def client404 : http.Client :=
  { NewRequest := fun _ => none
    Do := fun _ _ => .ok { StatusCode := 404, Body := .ok "" } }

/-- A parser that rejects the misspelt script of the test suite and accepts
every other source. -/
def host : Host :=
  { http := client
    ParseModule := fun _ _ src =>
      if src = "export default fction () \x7b\x7d" then
        .error (.foreign 1 "SyntaxError: main.js: Line 1:16 Unexpected identifier")
      else .ok { addr := 100 } }

/-- A handler that ignores its argument and returns `v`. -/
def constant (v : Value) : Callable := fun _ _ => .ok v

/-- An engine in which evaluating the top module takes `evaluated.millis` and
ends in the promise `evaluated.val`, and in which the default export is the
function `fn`. -/
def env (evaluated : Timed (PromiseState × Value)) (fn : Callable) : Env :=
  { SettingsPort := "_settings"
    settingsPort_ne := by decide
    New := { addr := 1, vubox := none }
    ToValue := fun _ a =>
      match a with
      | .nil => .null
      | .string s => .string s
      | .int64 n => .number n
      | .error e => .goError e
      | .other id => .object id
      | .promise st r => .promise st r
    ReadFile := fun m name =>
      match m name with
      | some data => .ok data
      | none => .error (.foreign 2 ("open " ++ name ++ ": file does not exist"))
    host := host
    Link := fun _ => { val := none, millis := 0 }
    CyclicModuleRecordEvaluate := fun _ _ => evaluated
    GetBindingValue := fun _ _ _ => .ret (.object 7)
    AssertFunction := fun v => if v = .object 7 then some fn else none
    fallback := fun _ => "%!s(?)" }

/-- Settings with the given top-level script and no auxiliary modules. -/
def settings (routeErrors : Bool) (content : String) : Settings :=
  { EnableErrorPort := routeErrors
    OutputData := .nil
    Script := { Name := "", Content := content }
    Modules := [] }

/-- A component that has been configured: its handler returns `v`. -/
def configured (routeErrors : Bool) (content : String) (v : Value) : Component :=
  { settings := settings routeErrors content
    handler := some (constant v)
    runtime := some { addr := 1, vubox := none } }

/-- Configured with a script that returns a string. -/
def plain : Component :=
  configured false "export default function () \x7b return \"result\";\x7d" (.string "result")

/-- Configured with the promise script of the test suite: the call returns a
promise fulfilled with "done". -/
def doneOnce : Component :=
  configured false
    "export default async function (i) \x7b return await new Promise((resolve, reject) => \x7bresolve(\"done\")\x7d)\x7d"
    (fulfilledNest 1 (.string "done"))

/-- Configured with a script that fulfils a promise with a promise whose `then`
is not callable, so that the engine does not adopt it: the call returns a
fulfilled promise of a fulfilled promise of "done". -/
def doneTwice : Component :=
  configured false
    "export default function () \x7b const p = Promise.resolve(\"done\"); p.then = undefined; return new Promise((resolve) => resolve(p)) \x7d"
    (fulfilledNest 2 (.string "done"))

/-- The same with an inner promise that is rejected. -/
def rejectedInside : Component :=
  configured false
    "export default function () \x7b const p = Promise.reject(\"error\"); p.then = undefined; return new Promise((resolve) => resolve(p)) \x7d"
    (.promise .Fulfilled (.promise .Rejected (.string "error")))

/-- Configured with the rejecting script of the test suite: the call returns a
promise rejected with "error". -/
def rejecting (routeErrors : Bool) : Component :=
  configured routeErrors
    "export default async function (i) \x7b return await new Promise((resolve, reject) => \x7breject(\"error\")\x7d)\x7d"
    (.promise .Rejected (.string "error"))

/-- A handler whose call throws. -/
def throwing : Callable := fun _ _ => .error (.foreign 3 "Error: boom")

/-- A component that has been configured with the throwing handler. -/
def configuredThrowing (routeErrors : Bool) : Component :=
  { settings := settings routeErrors "export default function () \x7b throw new Error(\"boom\") \x7d"
    handler := some throwing
    runtime := some { addr := 1, vubox := none } }

/-- A downstream callback that accepts everything. -/
def downstream : Handler := fun _ _ _ => .nil

def background : Ctx := { deadline := none }

/-- A resolver with an empty cache, one built-in module under a URL, and a file
system holding one file. -/
def resolver : Resolver :=
  { cache := fun _ => none
    goModules := fun k => if k = "https://cdn/x.js" then some { id := 5 } else none
    fs := fun _ name =>
      if name = "utils.js" then .ok "export const a = 1"
      else .error (.foreign 2 "file does not exist") }

/-- Settings whose auxiliary modules reuse the name of the top-level script and
carry one name twice. -/
def crowded : Settings :=
  { EnableErrorPort := false
    OutputData := .nil
    Script := { Name := "index.js", Content := "export default function () \x7b\x7d" }
    Modules :=
      [{ Name := "main.js", Content := "export const shadow = 1" },
       { Name := "utils.js", Content := "export const a = 1" },
       { Name := "utils.js", Content := "export const a = 2" }] }

def runtime : Runtime := { addr := 1, vubox := none }

def vu : ModuleVU := NewModuleVU background runtime

/-- A session: one call before, a first call for "missing.js", two calls in
between, and a second call for "missing.js"; the result of that second call. -/
def replay : (Option ModuleRecord × Option GoError) × Resolver × World :=
  let start := (NewResolver resolver.fs resolver.goModules vu runtime).1.resolveAll host
    { trace := [], heap := 0 } ["utils.js"]
  let first := start.1.Resolve host start.2 "missing.js"
  let mid := first.2.1.resolveAll host first.2.2 ["utils.js", "https://cdn/x.js"]
  mid.1.Resolve host mid.2 "missing.js"

end Sample

/-! ## Theorems: remote fetch -/

/-- The two error texts of `fetch` never coincide: they differ in the first
character. -/
theorem notFound_text_ne (u v w : String) :
    "not found: " ++ u ≠ "wrong status code (" ++ v ++ ") for: " ++ w := by
  intro h
  have h2 := congrArg String.data h
  simp [String.data_append] at h2

/-- C9: for a GET that returned a response, status 200 yields the body that was
read, without error; status 404 yields the error "not found: u"; every other
status c yields the error "wrong status code (c) for: u"; the 404 error differs,
as a value and in its text, from the error of every other non-200 status; and no
non-200 response yields bytes. -/
theorem fetch_status_mapping (client : http.Client) (now : Nat) (u : String)
    (res : http.Response) (hreq : client.NewRequest u = none)
    (hdo : client.Do now u = .ok res) :
    (res.StatusCode = 200 → ∀ data, res.Body = .ok data → fetch client now u = .ok data) ∧
    (res.StatusCode = 404 →
      fetch client now u = .error (.errorf ("not found: " ++ u))) ∧
    (res.StatusCode ≠ 200 → res.StatusCode ≠ 404 →
      fetch client now u = .error (.errorf
        ("wrong status code (" ++ toString res.StatusCode ++ ") for: " ++ u))) ∧
    (res.StatusCode = 404 → ∀ other : http.Response,
      other.StatusCode ≠ 200 → other.StatusCode ≠ 404 →
      fetch client now u ≠ fetchResponse u other ∧
      ∀ e e2, fetch client now u = .error e → fetchResponse u other = .error e2 →
        e.Error ≠ e2.Error) ∧
    (res.StatusCode ≠ 200 → ∀ data, fetch client now u ≠ .ok data) := by
  have hf : fetch client now u = fetchResponse u res := by
    simp [fetch, hreq, hdo]
  rw [hf]
  refine ⟨?_, ?_, ?_, ?_, ?_⟩
  · intro h data hb
    simp [fetchResponse, h, http.StatusOK, hb]
  · intro h
    simp [fetchResponse, h, http.StatusOK, http.StatusNotFound]
  · intro h1 h2
    simp [fetchResponse, h1, h2, http.StatusOK, http.StatusNotFound]
  · intro h other o1 o2
    have e1 : fetchResponse u res = .error (.errorf ("not found: " ++ u)) := by
      simp [fetchResponse, h, http.StatusOK, http.StatusNotFound]
    have e2 : fetchResponse u other = .error (.errorf
        ("wrong status code (" ++ toString other.StatusCode ++ ") for: " ++ u)) := by
      simp [fetchResponse, o1, o2, http.StatusOK, http.StatusNotFound]
    rw [e1, e2]
    refine ⟨?_, ?_⟩
    · intro hh
      injection hh with hh
      injection hh with hh
      exact notFound_text_ne _ _ _ hh
    · intro a b ha hb
      injection ha with ha
      injection hb with hb
      subst ha
      subst hb
      exact notFound_text_ne _ _ _
  · intro h data
    by_cases h4 : res.StatusCode = 404
    · simp [fetchResponse, h4, http.StatusOK, http.StatusNotFound]
    · simp [fetchResponse, h, h4, http.StatusOK, http.StatusNotFound]

/-! ## Theorems: the virtual source tree -/

/-- Looking a name up after the loop over the auxiliary modules: the last
module carrying the name wins, and without one the map is as before. -/
theorem foldl_set_lookup (xs : List ScriptItem) (init : MapFS) (name : String) :
    (xs.foldl (fun m script => MapFS.set m script.Name script.Content) init) name =
      ((xs.reverse.find? (fun m => m.Name = name)).map (fun m => m.Content)).orElse
        (fun _ => init name) := by
  induction xs generalizing init with
  | nil => simp
  | cons x xs ih =>
    rw [List.foldl_cons, ih, List.reverse_cons, List.find?_append]
    cases hfind : xs.reverse.find? (fun m => m.Name = name) with
    | some m => simp
    | none =>
      by_cases hx : x.Name = name
      · simp [MapFS.set, hx]
      · have hx2 : ¬ name = x.Name := fun h => hx h.symm
        simp [MapFS.set, hx, hx2]

/-- C10: the tree maps "main.js" to the content of the top-level script,
whatever that script is called and whatever the auxiliary modules are called;
every other name maps to the content of the last auxiliary module carrying it;
and a name that is neither "main.js" nor carried by a module has no entry. -/
theorem buildMapFS_spec (s : Settings) :
    buildMapFS s "main.js" = some s.Script.Content ∧
    (∀ name, name ≠ "main.js" →
      buildMapFS s name =
        (s.Modules.reverse.find? (fun m => m.Name = name)).map (fun m => m.Content)) ∧
    (∀ name, name ≠ "main.js" → (∀ m ∈ s.Modules, m.Name ≠ name) →
      buildMapFS s name = none) := by
  have key : ∀ name, name ≠ "main.js" →
      buildMapFS s name =
        (s.Modules.reverse.find? (fun m => m.Name = name)).map (fun m => m.Content) := by
    intro name hname
    have h := foldl_set_lookup s.Modules MapFS.make name
    simp only [buildMapFS, MapFS.set, mainModule, hname, if_false]
    rw [h]
    cases s.Modules.reverse.find? (fun m => m.Name = name) <;> simp [MapFS.make]
  refine ⟨?_, key, ?_⟩
  · simp [buildMapFS, MapFS.set, mainModule]
  · intro name hname hall
    rw [key name hname]
    have : s.Modules.reverse.find? (fun m => m.Name = name) = none := by
      rw [List.find?_eq_none]
      intro m hm
      simpa using hall m (List.mem_reverse.mp hm)
    simp [this]

/-! ## Theorems: the resolver cache -/

/-- A cached specifier is answered from the cache: nothing else changes. -/
theorem Resolve_hit (host : Host) (s : Resolver) (w : World) (x : String) (k : cacheElement)
    (h : s.cache x = some k) : s.Resolve host w x = ((k.m, k.err), s, w) := by
  simp [Resolver.Resolve, h]

/-- An uncached specifier: the outcome is written to the cache under that
specifier, and the trace grows by effects about that specifier only, at most
one source-provider call and at most one parser call. -/
theorem Resolve_miss (host : Host) (s : Resolver) (w : World) (y : String)
    (h : s.cache y = none) :
    ∃ (r : Option ModuleRecord × Option GoError) (new : List Effect) (hp : Nat),
      s.Resolve host w y = (r, s.store y { m := r.1, err := r.2 }, ⟨w.trace ++ new, hp⟩) ∧
      (∀ e ∈ new, e.specifier = y) ∧
      (new.filter Effect.isSource).length ≤ 1 ∧
      (new.filter (fun e => !e.isSource)).length ≤ 1 ∧
      (s.goModules y = none → (new.filter Effect.isSource).length = 1) := by
  unfold Resolver.Resolve
  simp only [h]
  cases hb : s.goModules y with
  | some m =>
    exact ⟨(some (.goModule { m := m, addr := w.heap }), none), [], w.heap + 1, by simp,
      by simp, by simp, by simp, by simp⟩
  | none =>
    by_cases hp : (HasPrefix y "http://" || HasPrefix y "https://") = true
    · simp only [hp, if_true]
      cases hf : fetch host.http w.now y with
      | error err =>
        exact ⟨(none, some err), [.fetch y], w.heap, by simp [World.record], by simp [Effect.specifier],
          by simp [Effect.isSource], by simp [Effect.isSource], by simp [Effect.isSource]⟩
      | ok b =>
        cases hq : host.ParseModule (w.record (.fetch y)).now y b with
        | error err =>
          exact ⟨(none, some err), [.fetch y, .parse y], w.heap,
            by simp only [World.record] at hq; simp [World.record, hq],
            by simp [Effect.specifier], by simp [Effect.isSource], by simp [Effect.isSource],
            by simp [Effect.isSource]⟩
        | ok p =>
          exact ⟨(some (.sourceText p), none), [.fetch y, .parse y], w.heap,
            by simp only [World.record] at hq; simp [World.record, hq],
            by simp [Effect.specifier], by simp [Effect.isSource], by simp [Effect.isSource],
            by simp [Effect.isSource]⟩
    · simp only [hp, if_false]
      cases hf : s.fs w.now y with
      | error err =>
        exact ⟨(none, some err), [.readFile y], w.heap, by simp [World.record],
          by simp [Effect.specifier], by simp [Effect.isSource], by simp [Effect.isSource],
          by simp [Effect.isSource]⟩
      | ok b =>
        cases hq : host.ParseModule (w.record (.readFile y)).now y b with
        | error err =>
          exact ⟨(none, some err), [.readFile y, .parse y], w.heap,
            by simp only [World.record] at hq; simp [World.record, hq],
            by simp [Effect.specifier], by simp [Effect.isSource], by simp [Effect.isSource],
            by simp [Effect.isSource]⟩
        | ok p =>
          exact ⟨(some (.sourceText p), none), [.readFile y, .parse y], w.heap,
            by simp only [World.record] at hq; simp [World.record, hq], by simp [Effect.specifier], by simp [Effect.isSource],
            by simp [Effect.isSource], by simp [Effect.isSource]⟩

theorem effectsFor_append (x : String) (a b : List Effect) :
    effectsFor x (a ++ b) = effectsFor x a ++ effectsFor x b := by
  simp [effectsFor]

theorem effectsFor_other (x y : String) (new : List Effect) (hxy : x ≠ y)
    (hnew : ∀ e ∈ new, e.specifier = y) : effectsFor x new = [] := by
  simp only [effectsFor, List.filter_eq_nil_iff]
  intro e he
  simp [hnew e he, hxy.symm]

theorem effectsFor_same (y : String) (new : List Effect)
    (hnew : ∀ e ∈ new, e.specifier = y) : effectsFor y new = new := by
  simp only [effectsFor, List.filter_eq_self]
  intro e he
  simp [hnew e he]

/-- `Resolve` never touches the registry of built-in modules. -/
theorem Resolve_goModules (host : Host) (s : Resolver) (w : World) (y : String) :
    (s.Resolve host w y).2.1.goModules = s.goModules := by
  cases hy : s.cache y with
  | some k => rw [Resolve_hit host s w y k hy]
  | none =>
    obtain ⟨r, new, hp, hres, _⟩ := Resolve_miss host s w y hy
    rw [hres]
    rfl

/-- After `Resolve(x)` the cache holds for `x` the pair that was returned. -/
theorem Resolve_writes (host : Host) (s : Resolver) (w : World) (x : String) :
    (s.Resolve host w x).2.1.cache x =
      some { m := (s.Resolve host w x).1.1, err := (s.Resolve host w x).1.2 } := by
  cases hx : s.cache x with
  | some k => rw [Resolve_hit host s w x k hx]; simpa using hx
  | none =>
    obtain ⟨r, new, hp, hres, _⟩ := Resolve_miss host s w x hx
    rw [hres]
    simp [Resolver.store]

/-- A cache entry, once present, survives any call of `Resolve`, and that call
adds no effect about the cached specifier. -/
theorem Resolve_keeps (host : Host) (s : Resolver) (w : World) (x y : String)
    (k : cacheElement) (h : s.cache x = some k) :
    (s.Resolve host w y).2.1.cache x = some k ∧
      effectsFor x (s.Resolve host w y).2.2.trace = effectsFor x w.trace := by
  cases hy : s.cache y with
  | some k2 => rw [Resolve_hit host s w y k2 hy]; exact ⟨h, rfl⟩
  | none =>
    have hxy : x ≠ y := by
      intro e
      rw [e, hy] at h
      cases h
    obtain ⟨r, new, hp, hres, hnew, _⟩ := Resolve_miss host s w y hy
    rw [hres]
    refine ⟨?_, ?_⟩
    · simp [Resolver.store, hxy, h]
    · simp [effectsFor_append, effectsFor_other x y new hxy hnew]

/-- The same for a run of calls. -/
theorem resolveAll_keeps (host : Host) (xs : List String) (s : Resolver) (w : World)
    (x : String) (k : cacheElement) (h : s.cache x = some k) :
    (s.resolveAll host w xs).1.cache x = some k ∧
      effectsFor x (s.resolveAll host w xs).2.trace = effectsFor x w.trace := by
  induction xs generalizing s w with
  | nil => exact ⟨h, rfl⟩
  | cons y ys ih =>
    have h1 := Resolve_keeps host s w x y k h
    have h2 := ih (s.Resolve host w y).2.1 (s.Resolve host w y).2.2 h1.1
    simp only [Resolver.resolveAll]
    exact ⟨h2.1, h2.2.trans h1.2⟩

theorem resolveAll_goModules (host : Host) (xs : List String) (s : Resolver) (w : World) :
    (s.resolveAll host w xs).1.goModules = s.goModules := by
  induction xs generalizing s w with
  | nil => rfl
  | cons y ys ih =>
    simp only [Resolver.resolveAll]
    rw [ih, Resolve_goModules]

/-- One call of `Resolve` keeps the session invariant. -/
theorem Resolve_inv (host : Host) (s : Resolver) (w : World) (y : String)
    (hinv : SessionInv s w) : SessionInv (s.Resolve host w y).2.1 (s.Resolve host w y).2.2 := by
  cases hy : s.cache y with
  | some k => rw [Resolve_hit host s w y k hy]; exact hinv
  | none =>
    obtain ⟨r, new, hp, hres, hnew, hsrc, hparse, hone⟩ := Resolve_miss host s w y hy
    rw [hres]
    intro x
    by_cases hxy : x = y
    · subst hxy
      have h0 : effectsFor x w.trace = [] := (hinv x).1 hy
      have hs : effectsFor x new = new := effectsFor_same x new hnew
      refine ⟨?_, ?_, ?_, ?_⟩
      · simp [Resolver.store]
      · simpa [sourceCount, effectsFor_append, h0, hs] using hsrc
      · simpa [parseCount, effectsFor_append, h0, hs] using hparse
      · intro _ hb
        simpa [sourceCount, effectsFor_append, h0, hs] using hone hb
    · have hn : effectsFor x new = [] := effectsFor_other x y new hxy hnew
      have hc : (s.store y { m := r.1, err := r.2 }).cache x = s.cache x := by
        simp [Resolver.store, hxy]
      have hg : (s.store y { m := r.1, err := r.2 }).goModules = s.goModules := rfl
      simpa [sourceCount, parseCount, effectsFor_append, hn, hc, hg] using hinv x

theorem resolveAll_inv (host : Host) (xs : List String) (s : Resolver) (w : World)
    (hinv : SessionInv s w) : SessionInv (s.resolveAll host w xs).1 (s.resolveAll host w xs).2 := by
  induction xs generalizing s w with
  | nil => exact hinv
  | cons y ys ih =>
    simp only [Resolver.resolveAll]
    exact ih _ _ (Resolve_inv host s w y hinv)

/-- A new session satisfies the invariant. -/
theorem NewResolver_inv (fs : FS) (mods : String → Option Module) (vu : ModuleVU)
    (rt : Runtime) (heap : Nat) :
    SessionInv (NewResolver fs mods vu rt).1 { trace := [], heap := heap } := by
  intro x
  simp [NewResolver, effectsFor, sourceCount, parseCount]

/-- C1: in a session started by `NewResolver`, after any calls before, once
`Resolve(spec)` has returned a pair, a later `Resolve(spec)` with any calls in
between returns the same pair; the cache entry for `spec` is the returned pair
and stays as first written; the later call and the calls in between add no
read, fetch or parse for `spec`; the whole trace holds at most one
source-provider call and at most one parser call for `spec`, and exactly one
source-provider call when `spec` is not a built-in module. -/
theorem Resolve_memoizes (host : Host) (fs : FS) (mods : String → Option Module)
    (vu : ModuleVU) (rt : Runtime) (heap : Nat) (before : List String) (spec : String)
    (between : List String) :
    let start := (NewResolver fs mods vu rt).1.resolveAll host { trace := [], heap := heap } before
    let first := start.1.Resolve host start.2 spec
    let mid := first.2.1.resolveAll host first.2.2 between
    let again := mid.1.Resolve host mid.2 spec
    again.1 = first.1 ∧
    first.2.1.cache spec = some { m := first.1.1, err := first.1.2 } ∧
    mid.1.cache spec = first.2.1.cache spec ∧
    again.2.1.cache spec = first.2.1.cache spec ∧
    effectsFor spec again.2.2.trace = effectsFor spec first.2.2.trace ∧
    sourceCount spec again.2.2.trace ≤ 1 ∧
    parseCount spec again.2.2.trace ≤ 1 ∧
    (mods spec = none → sourceCount spec again.2.2.trace = 1) := by
  intro start first mid again
  have hw : first.2.1.cache spec = some { m := first.1.1, err := first.1.2 } :=
    Resolve_writes host start.1 start.2 spec
  have hk := resolveAll_keeps host between first.2.1 first.2.2 spec _ hw
  have hagain : again = ((first.1.1, first.1.2), mid.1, mid.2) :=
    Resolve_hit host mid.1 mid.2 spec _ hk.1
  have hinv0 : SessionInv start.1 start.2 :=
    resolveAll_inv host before _ _ (NewResolver_inv fs mods vu rt heap)
  have hinv1 : SessionInv first.2.1 first.2.2 := Resolve_inv host start.1 start.2 spec hinv0
  have hinv2 : SessionInv mid.1 mid.2 := resolveAll_inv host between _ _ hinv1
  have hg : mid.1.goModules = mods := by
    show (first.2.1.resolveAll host first.2.2 between).1.goModules = mods
    rw [resolveAll_goModules]
    show (start.1.Resolve host start.2 spec).2.1.goModules = mods
    rw [Resolve_goModules]
    show ((NewResolver fs mods vu rt).1.resolveAll host _ before).1.goModules = mods
    rw [resolveAll_goModules]
    rfl
  rw [hagain]
  refine ⟨rfl, hw, hk.1.trans hw.symm, hk.1.trans hw.symm, hk.2, (hinv2 spec).2.1,
    (hinv2 spec).2.2.1, ?_⟩
  intro hb
  refine (hinv2 spec).2.2.2 ?_ ?_
  · rw [hk.1]; simp
  · rw [hg]; exact hb

/-! ## Theorems: provider precedence -/

/-- C2: for a specifier that is not cached, a built-in module wins: the result is
the record wrapping it, with no error, and the trace is untouched (no file read,
no fetch), whatever the file system, the network and the spelling of the
specifier.  Otherwise a specifier that begins with "http://" or "https://" is
fetched and not read from the file system; any other specifier is read from the
file system and not fetched.  In both cases a failure of the provider is the
result, and a success is handed to the parser. -/
theorem Resolve_precedence (host : Host) (s : Resolver) (w : World) (spec : String)
    (h : s.cache spec = none) :
    (∀ m, s.goModules spec = some m →
      s.Resolve host w spec =
        ((some (.goModule { m := m, addr := w.heap }), none),
          s.store spec { m := some (.goModule { m := m, addr := w.heap }), err := none },
          { trace := w.trace, heap := w.heap + 1 })) ∧
    (s.goModules spec = none →
      (HasPrefix spec "http://" = true ∨ HasPrefix spec "https://" = true) →
      match fetch host.http w.now spec with
      | .error err =>
        (s.Resolve host w spec).1 = (none, some err) ∧
        (s.Resolve host w spec).2.2.trace = w.trace ++ [.fetch spec]
      | .ok b =>
        (s.Resolve host w spec).1 =
          (match host.ParseModule (w.now + 1) spec b with
            | .error err => (none, some err)
            | .ok p => (some (.sourceText p), none)) ∧
        (s.Resolve host w spec).2.2.trace = w.trace ++ [.fetch spec, .parse spec]) ∧
    (s.goModules spec = none →
      HasPrefix spec "http://" = false → HasPrefix spec "https://" = false →
      match s.fs w.now spec with
      | .error err =>
        (s.Resolve host w spec).1 = (none, some err) ∧
        (s.Resolve host w spec).2.2.trace = w.trace ++ [.readFile spec]
      | .ok b =>
        (s.Resolve host w spec).1 =
          (match host.ParseModule (w.now + 1) spec b with
            | .error err => (none, some err)
            | .ok p => (some (.sourceText p), none)) ∧
        (s.Resolve host w spec).2.2.trace = w.trace ++ [.readFile spec, .parse spec]) := by
  refine ⟨?_, ?_, ?_⟩
  · intro m hm
    simp [Resolver.Resolve, h, hm]
  · intro hb hp
    have hp2 : (HasPrefix spec "http://" || HasPrefix spec "https://") = true := by
      cases hp with
      | inl a => simp [a]
      | inr a => simp [a]
    cases hf : fetch host.http w.now spec with
    | error err => simp [Resolver.Resolve, h, hb, hp2, hf, World.record]
    | ok b =>
      cases hq : host.ParseModule (w.now + 1) spec b with
      | error err =>
        simp only [World.now] at hq hf
        simp [Resolver.Resolve, h, hb, hp2, hf, World.record, World.now, hq]
      | ok p =>
        simp only [World.now] at hq hf
        simp [Resolver.Resolve, h, hb, hp2, hf, World.record, World.now, hq]
  · intro hb hp1 hp3
    cases hf : s.fs w.now spec with
    | error err => simp [Resolver.Resolve, h, hb, hp1, hp3, hf, World.record]
    | ok b =>
      cases hq : host.ParseModule (w.now + 1) spec b with
      | error err =>
        simp only [World.now] at hq hf
        simp [Resolver.Resolve, h, hb, hp1, hp3, hf, World.record, World.now, hq]
      | ok p =>
        simp only [World.now] at hq hf
        simp [Resolver.Resolve, h, hb, hp1, hp3, hf, World.record, World.now, hq]

/-! ## Theorems: reconfiguration -/

/-- The call `r.Resolve(nil, mainModule)` made by `init`: with an empty cache
and no built-in modules, "main.js" is read from the virtual tree and parsed. -/
theorem init_Resolve (env : Env) (mapFS : MapFS) (vu : ModuleVU) (vm : Runtime) :
    ((NewResolver (fun _ name => env.ReadFile mapFS name) goModules vu vm).1.Resolve env.host
        { trace := [], heap := 0 } mainModule).1 =
      (match env.ReadFile mapFS mainModule with
        | .error err => (none, some err)
        | .ok b =>
          match env.host.ParseModule 1 mainModule b with
          | .error err => (none, some err)
          | .ok p => (some (.sourceText p), none)) := by
  have h := (Resolve_precedence env.host
    (NewResolver (fun _ name => env.ReadFile mapFS name) goModules vu vm).1
    { trace := [], heap := 0 } mainModule rfl).2.2 rfl (by decide) (by decide)
  simp only [NewResolver, World.now, List.length_nil, Nat.zero_add] at h ⊢
  cases hr : env.ReadFile mapFS mainModule with
  | error err => rw [hr] at h; exact h.1
  | ok b => rw [hr] at h; exact h.1

theorem NewResolver_runtime (fs : FS) (mods : String → Option Module) (vu : ModuleVU)
    (rt : Runtime) : (NewResolver fs mods vu rt).2 = { rt with vubox := some vu } := rfl

/-- When `init` returns an error it returns the component it was given. -/
theorem init_failure_keeps (env : Env) (now : Nat) (h : Component) (ctx : Ctx) (s : Settings)
    (r : InitResult) (e : GoError) (hr : h.init env now ctx s = .ret r)
    (he : r.err = some e) : r.h = h := by
  unfold Component.init at hr
  dsimp only at hr
  repeat' (split at hr)
  all_goals (cases hr <;> first | rfl | (simp at he))

/-- C6: a reconfiguration that fails produces no handler.  When the top script
is empty, or "main.js" cannot be read or parsed, or linking fails, or the
default export is not callable, `Handle` on the settings port returns that
error, sends nothing, and leaves handler and runtime as they were; more
generally, whenever `Handle` on the settings port returns an error, handler and
runtime are as before the call; and when the component had no handler, a
following request fails with "handler is not initialised". -/
theorem Handle_settings_failure (env : Env) (now : Nat) (h : Component) (ctx : Ctx)
    (handler : Handler) (s : Settings) :
    let after := h.Handle env now ctx handler env.SettingsPort (.settings s)
    (s.Script.Content = "" → FailedWith h after (.errorf "empty script")) ∧
    (s.Script.Content ≠ "" → ∀ err, env.ReadFile (buildMapFS s) mainModule = .error err →
      FailedWith h after err) ∧
    (s.Script.Content ≠ "" → ∀ src err, env.ReadFile (buildMapFS s) mainModule = .ok src →
      env.host.ParseModule 1 mainModule src = .error err → FailedWith h after err) ∧
    (s.Script.Content ≠ "" → ∀ src p err, env.ReadFile (buildMapFS s) mainModule = .ok src →
      env.host.ParseModule 1 mainModule src = .ok p → (env.Link p).val = some err →
      FailedWith h after (.wrapf ("failed to link source text: " ++ err.Error) err)) ∧
    (s.Script.Content ≠ "" → ∀ src p vm result val,
      env.ReadFile (buildMapFS s) mainModule = .ok src →
      env.host.ParseModule 1 mainModule src = .ok p → (env.Link p).val = none →
      vm = { env.New with vubox := some (NewModuleVU (ctx.WithTimeout now 15000) env.New) } →
      (env.CyclicModuleRecordEvaluate vm p).val = (.Fulfilled, result) →
      env.GetBindingValue vm p defaultExport = .ret val → env.AssertFunction val = none →
      FailedWith h after (.errorf "failed to assert default export function")) ∧
    (∀ res err, after = .ret res → res.ret = .error err →
      res.sent = [] ∧ res.h.handler = h.handler ∧ res.h.runtime = h.runtime ∧
      (h.handler = none → ∀ env2 now2 ctx2 handler2 req,
        ∃ res2, res.h.Handle env2 now2 ctx2 handler2 RequestPort (.request req) = .ret res2 ∧
          res2.ret = .error (.errorf "handler is not initialised") ∧ res2.sent = [] ∧
          res2.h.handler = none)) := by
  intro after
  refine ⟨?_, ?_, ?_, ?_, ?_, ?_⟩
  · intro h0
    simp [after, FailedWith, Component.Handle, Component.init, h0]
  · intro hne err hr
    simp [after, FailedWith, Component.Handle, Component.init, hne, init_Resolve, hr]
  · intro hne src err hr hp
    simp [after, FailedWith, Component.Handle, Component.init, hne, init_Resolve, hr, hp]
  · intro hne src p err hr hp hl
    simp [after, FailedWith, Component.Handle, Component.init, hne, init_Resolve, hr, hp, hl]
  · intro hne src p vm result val hr hp hl hvm he hb ha
    subst hvm
    simp [after, FailedWith, Component.Handle, Component.init, hne, init_Resolve, hr, hp, hl,
      NewResolver_runtime, he, hb, ha]
  · intro res err hafter hret
    simp only [after, Component.Handle, if_true] at hafter
    cases hi : ({ h with settings := s } : Component).init env now ctx s with
    | panic why => rw [hi] at hafter; cases hafter
    | ret r =>
      rw [hi] at hafter
      dsimp only at hafter
      cases hre : r.err with
      | none =>
        rw [hre] at hafter
        dsimp only at hafter
        cases hafter
        cases hret
      | some e =>
        rw [hre] at hafter
        dsimp only at hafter
        have hk := init_failure_keeps env now _ ctx s r e hi hre
        cases hafter
        refine ⟨rfl, ?_, ?_, ?_⟩
        · show r.h.handler = h.handler
          rw [hk]
        · show r.h.runtime = h.runtime
          rw [hk]
        · intro hnone env2 now2 ctx2 handler2 req
          have hh : r.h.handler = none := by rw [hk]; exact hnone
          have hp2 : ¬ RequestPort = env2.SettingsPort := fun e2 => env2.settingsPort_ne e2.symm
          simp [Component.Handle, hp2, hh]

/-! ## Theorems: invocation -/

/-- C5: on the request port, for a component with handler and runtime, when the
call of the handler with the single argument `ToValue(InputData)` succeeds with
a value that is not a promise, `Handle` sends exactly one message, on the
"response" port, carrying the request's context and the exported value, sends
nothing on the "error" port, leaves the component as it was, and returns what
the downstream callback returns for that message. -/
theorem Handle_request_plain (env : Env) (now : Nat) (h : Component) (ctx : Ctx)
    (handler : Handler) (req : Request) (fn : Callable) (rt : Runtime) (v : Value)
    (hh : h.handler = some fn) (hr : h.runtime = some rt)
    (hcall : fn .undefined [env.ToValue rt req.InputData] = .ok v)
    (hnil : v ≠ .goNil) (hnp : ∀ st r, v ≠ .promise st r) :
    ∃ out res, v.Export = some out ∧ (∀ st r, out ≠ .promise st r) ∧
      h.Handle env now ctx handler RequestPort (.request req) = .ret res ∧
      res.sent = [(ResponsePort, .response { Context := req.Context, OutputData := out })] ∧
      (∀ m ∈ res.sent, m.1 ≠ ErrorPort) ∧
      res.ret = handler ctx ResponsePort
        (.response { Context := req.Context, OutputData := out }) ∧
      res.h.handler = h.handler ∧ res.h.runtime = h.runtime ∧ res.h.settings = h.settings := by
  have hp : ¬ RequestPort = env.SettingsPort := fun e => env.settingsPort_ne e.symm
  have hne : ResponsePort ≠ ErrorPort := by decide
  cases v with
  | goNil => exact absurd rfl hnil
  | promise st r => exact absurd rfl (hnp st r)
  | undefined =>
    exact ⟨_, _, rfl, by simp, by simp [Component.Handle, hp, hh, hr, hcall, Value.Export]; rfl,
      rfl, by simp [hne], rfl, rfl, rfl, rfl⟩
  | null =>
    exact ⟨_, _, rfl, by simp, by simp [Component.Handle, hp, hh, hr, hcall, Value.Export]; rfl,
      rfl, by simp [hne], rfl, rfl, rfl, rfl⟩
  | string x =>
    exact ⟨_, _, rfl, by simp, by simp [Component.Handle, hp, hh, hr, hcall, Value.Export]; rfl,
      rfl, by simp [hne], rfl, rfl, rfl, rfl⟩
  | number x =>
    exact ⟨_, _, rfl, by simp, by simp [Component.Handle, hp, hh, hr, hcall, Value.Export]; rfl,
      rfl, by simp [hne], rfl, rfl, rfl, rfl⟩
  | goError x =>
    exact ⟨_, _, rfl, by simp, by simp [Component.Handle, hp, hh, hr, hcall, Value.Export]; rfl,
      rfl, by simp [hne], rfl, rfl, rfl, rfl⟩
  | object x =>
    exact ⟨_, _, rfl, by simp, by simp [Component.Handle, hp, hh, hr, hcall, Value.Export]; rfl,
      rfl, by simp [hne], rfl, rfl, rfl, rfl⟩

theorem Export_promise (st : PromiseState) (r : Value) :
    (Value.promise st r).Export = some (.promise st r) := rfl

/-- C3, as the code has it: `Handle` unwraps one promise level and does not
repeat the check.  When the handler returns a value under `n + 1` fulfilled
promises, the data sent on the "response" port is the export of that value under
`n` fulfilled promises: the value itself for depth 1, and for depth `n + 2` the
fulfilled promise of depth `n + 1`.  When the handler returns a rejected promise
and error routing is off, `Handle` sends nothing and returns an error whose text
is the rejection reason. -/
theorem Handle_unwraps_one_level (env : Env) (now : Nat) (h : Component) (ctx : Ctx)
    (handler : Handler) (req : Request) (fn : Callable) (rt : Runtime)
    (hh : h.handler = some fn) (hr : h.runtime = some rt) :
    (∀ n v out, fn .undefined [env.ToValue rt req.InputData] = .ok (fulfilledNest (n + 1) v) →
      (fulfilledNest n v).Export = some out →
      h.Handle env now ctx handler RequestPort (.request req) =
        .ret { h := h
               sent := [(ResponsePort, .response { Context := req.Context, OutputData := out })]
               ret := handler ctx ResponsePort
                 (.response { Context := req.Context, OutputData := out }) }) ∧
    (∀ n v, (fulfilledNest (n + 1) v).Export = some (.promise .Fulfilled (fulfilledNest n v))) ∧
    (∀ reason r, h.settings.EnableErrorPort = false →
      fn .undefined [env.ToValue rt req.InputData] = .ok (.promise .Rejected reason) →
      reason.Export = some r →
      h.Handle env now ctx handler RequestPort (.request req) =
        .ret { h := h, sent := [], ret := .error (.errorf (Sprintf_s env.fallback r)) }) := by
  have hp : ¬ RequestPort = env.SettingsPort := fun e => env.settingsPort_ne e.symm
  refine ⟨?_, ?_, ?_⟩
  · intro n v out hcall hout
    simp [Component.Handle, hp, hh, hr, hcall, fulfilledNest, Export_promise, hout]
  · intro n v
    rfl
  · intro reason r _ hcall hout
    simp [Component.Handle, hp, hh, hr, hcall, Export_promise, hout]

/-- C3 fails at depth 2: a handler result that is a fulfilled promise of a
fulfilled promise of "done" is sent on as the inner promise, not as "done"; and a
fulfilled promise of a rejected promise is sent on the "response" port as that
rejected promise, with no error returned. -/
theorem Handle_nested_promise_counterexample :
    (∃ res, Sample.doneTwice.Handle
        (Sample.env { val := (.Fulfilled, .undefined), millis := 0 } (Sample.constant .null)) 0
        Sample.background Sample.downstream RequestPort
        (.request { Context := .nil, InputData := .string "hello" }) = .ret res ∧
      res.sent = [(ResponsePort, .response
        { Context := .nil, OutputData := .promise .Fulfilled (.string "done") })] ∧
      res.sent ≠ [(ResponsePort, .response { Context := .nil, OutputData := .string "done" })]) ∧
    (∃ res, Sample.rejectedInside.Handle
        (Sample.env { val := (.Fulfilled, .undefined), millis := 0 } (Sample.constant .null)) 0
        Sample.background Sample.downstream RequestPort
        (.request { Context := .nil, InputData := .string "hello" }) = .ret res ∧
      res.sent = [(ResponsePort, .response
        { Context := .nil, OutputData := .promise .Rejected (.string "error") })] ∧
      res.ret = .nil) := by
  refine ⟨⟨_, rfl, rfl, by decide⟩, ⟨_, rfl, rfl, rfl⟩⟩

/-- C4 at the failing input: with error routing on, a handler result that is a
promise rejected with "error" makes `Handle` return the error "error" and send
nothing, neither on the "error" port nor elsewhere; whereas a handler call that
throws, under the same settings, is sent on the "error" port with the request's
context. -/
theorem Handle_rejected_promise_not_routed :
    (∃ res, (Sample.rejecting true).Handle
        (Sample.env { val := (.Fulfilled, .undefined), millis := 0 } (Sample.constant .null)) 0
        Sample.background Sample.downstream RequestPort
        (.request { Context := .string "order-1", InputData := .nil }) = .ret res ∧
      res.sent = [] ∧ res.ret = .error (.errorf "error")) ∧
    (∃ res, (Sample.configuredThrowing true).Handle
        (Sample.env { val := (.Fulfilled, .undefined), millis := 0 } (Sample.constant .null)) 0
        Sample.background Sample.downstream RequestPort
        (.request { Context := .string "order-1", InputData := .nil }) = .ret res ∧
      res.sent = [(ErrorPort, .error
        { Context := .string "order-1", Error := "Error: boom" })] ∧
      res.ret = .nil) := by
  refine ⟨⟨_, rfl, rfl, rfl⟩, ⟨_, rfl, rfl, rfl⟩⟩

/-- C7: when evaluating the top module ends in a rejected promise, `init`
returns an evaluation error that wraps the rejection value, does not panic, and
leaves handler and runtime as they were.  The rejection value is the one the
engine hands over: a Go error, which is how a host error arrives as itself and
how a thrown string, number or object arrives inside the engine's exception;
the statement holds for every such error. -/
theorem init_rejected_evaluation (env : Env) (now : Nat) (h : Component) (ctx : Ctx)
    (s : Settings) (src : String) (p : SourceTextModuleRecord) (vm : Runtime)
    (reason : Value) (e : GoError)
    (hne : s.Script.Content ≠ "")
    (hr : env.ReadFile (buildMapFS s) mainModule = .ok src)
    (hp : env.host.ParseModule 1 mainModule src = .ok p)
    (hl : (env.Link p).val = none)
    (hvm : vm = { env.New with
      vubox := some (NewModuleVU (ctx.WithTimeout now 15000) env.New) })
    (he : (env.CyclicModuleRecordEvaluate vm p).val = (.Rejected, reason))
    (hx : reason.Export = some (.error e)) :
    ∃ r, h.init env now ctx s = .ret r ∧
      r.err = some (.wrapf ("failed to evaluate promise: " ++ e.Error) e) ∧
      r.h.handler = h.handler ∧ r.h.runtime = h.runtime ∧ r.h.settings = h.settings := by
  subst hvm
  simp [Component.init, hne, init_Resolve, hr, hp, hl, NewResolver_runtime, he, hx]

/-- C8 at the failing input: `init` is entered at clock 0, so the context it
creates expires at 15000; evaluating the top module takes 20000 milliseconds and
ends fulfilled.  `init` returns at clock 20000 with no error and with the
handler set; the expired context sits in the runtime's `vubox` and nothing has
looked at it. -/
theorem init_outlives_deadline :
    ∃ r, Component.Instance.init
        (Sample.env { val := (.Fulfilled, .undefined), millis := 20000 } (Sample.constant .null)) 0
        Sample.background (Sample.settings false
          "const t = Date.now(); while (Date.now() - t < 20000) \x7b\x7d; export default function () \x7b\x7d") = .ret r ∧
      r.err = none ∧ r.clock = 20000 ∧
      r.h.handler = some (Sample.constant .null) ∧
      r.h.runtime = some
        { addr := 1, vubox := some { ctx := { deadline := some 15000 }, runtime := 1 } } := by
  refine ⟨_, rfl, rfl, rfl, rfl, rfl⟩

/-! ## The theorems at sample inputs -/

theorem fetch_status_mapping_witness :
    Sample.client404.NewRequest "https://cdn/missing.js" = none ∧
    fetch Sample.client404 0 "https://cdn/missing.js" =
      .error (.errorf "not found: https://cdn/missing.js") :=
  ⟨rfl, (fetch_status_mapping Sample.client404 0 "https://cdn/missing.js"
    { StatusCode := 404, Body := .ok "" } rfl rfl).2.1 rfl⟩

theorem buildMapFS_spec_witness :
    buildMapFS Sample.crowded "main.js" = some "export default function () \x7b\x7d" ∧
    buildMapFS Sample.crowded "utils.js" = some "export const a = 2" :=
  ⟨(buildMapFS_spec Sample.crowded).1,
    (buildMapFS_spec Sample.crowded).2.1 "utils.js" (by decide)⟩

theorem Resolve_memoizes_witness :
    Sample.resolver.goModules "missing.js" = none ∧
    sourceCount "missing.js" Sample.replay.2.2.trace = 1 :=
  ⟨by decide,
    (Resolve_memoizes Sample.host Sample.resolver.fs Sample.resolver.goModules Sample.vu
      Sample.runtime 0 ["utils.js"] "missing.js" ["utils.js", "https://cdn/x.js"]).2.2.2.2.2.2.2
      (by decide)⟩

theorem Resolve_precedence_witness :
    Sample.resolver.cache "https://cdn/x.js" = none ∧
    Sample.resolver.Resolve Sample.host { trace := [.readFile "a.js"], heap := 3 }
        "https://cdn/x.js" =
      ((some (.goModule { m := { id := 5 }, addr := 3 }), none),
        Sample.resolver.store "https://cdn/x.js"
          { m := some (.goModule { m := { id := 5 }, addr := 3 }), err := none },
        { trace := [.readFile "a.js"], heap := 4 }) :=
  ⟨rfl, (Resolve_precedence Sample.host Sample.resolver { trace := [.readFile "a.js"], heap := 3 }
    "https://cdn/x.js" rfl).1 { id := 5 } (by decide)⟩

theorem Handle_settings_failure_witness :
    (Sample.settings false "export default fction () \x7b\x7d").Script.Content ≠ "" ∧
    FailedWith Component.Instance
      (Component.Instance.Handle
        (Sample.env { val := (.Fulfilled, .undefined), millis := 0 } (Sample.constant .null)) 0
        Sample.background Sample.downstream "_settings"
        (.settings (Sample.settings false "export default fction () \x7b\x7d")))
      (.foreign 1 "SyntaxError: main.js: Line 1:16 Unexpected identifier") :=
  ⟨by decide,
    (Handle_settings_failure
      (Sample.env { val := (.Fulfilled, .undefined), millis := 0 } (Sample.constant .null)) 0
      Component.Instance Sample.background Sample.downstream
      (Sample.settings false "export default fction () \x7b\x7d")).2.2.1 (by decide)
      "export default fction () \x7b\x7d"
      (.foreign 1 "SyntaxError: main.js: Line 1:16 Unexpected identifier") rfl rfl⟩

theorem Handle_request_plain_witness :
    ∃ out res, (Value.string "result").Export = some out ∧ (∀ st r, out ≠ .promise st r) ∧
      Sample.plain.Handle
        (Sample.env { val := (.Fulfilled, .undefined), millis := 0 } (Sample.constant .null)) 0
        Sample.background Sample.downstream RequestPort
        (.request { Context := .string "order-1", InputData := .nil }) = .ret res ∧
      res.sent = [(ResponsePort, .response
        { Context := .string "order-1", OutputData := out })] ∧
      (∀ m ∈ res.sent, m.1 ≠ ErrorPort) ∧
      res.ret = Sample.downstream Sample.background ResponsePort
        (.response { Context := .string "order-1", OutputData := out }) ∧
      res.h.handler = Sample.plain.handler ∧
      res.h.runtime = Sample.plain.runtime ∧
      res.h.settings = Sample.plain.settings :=
  Handle_request_plain
    (Sample.env { val := (.Fulfilled, .undefined), millis := 0 } (Sample.constant .null)) 0
    Sample.plain Sample.background Sample.downstream
    { Context := .string "order-1", InputData := .nil } (Sample.constant (.string "result"))
    { addr := 1, vubox := none } (.string "result") rfl rfl rfl (by decide)
    (fun _ _ hv => Value.noConfusion hv)

theorem Handle_unwraps_one_level_witness :
    Sample.doneOnce.Handle
        (Sample.env { val := (.Fulfilled, .undefined), millis := 0 } (Sample.constant .null)) 0
        Sample.background Sample.downstream RequestPort
        (.request { Context := .nil, InputData := .string "hello" }) =
      .ret { h := Sample.doneOnce
             sent := [(ResponsePort, .response
               { Context := .nil, OutputData := .string "done" })]
             ret := Sample.downstream Sample.background ResponsePort
               (.response { Context := .nil, OutputData := .string "done" }) } :=
  (Handle_unwraps_one_level
    (Sample.env { val := (.Fulfilled, .undefined), millis := 0 } (Sample.constant .null)) 0
    Sample.doneOnce Sample.background
    Sample.downstream { Context := .nil, InputData := .string "hello" }
    (Sample.constant (fulfilledNest 1 (.string "done"))) { addr := 1, vubox := none }
    rfl rfl).1 0 (.string "done") (.string "done") rfl rfl

theorem init_rejected_evaluation_witness :
    ∃ r, Component.Instance.init
        (Sample.env { val := (.Rejected, .goError (.foreign 4 "Error: boom")), millis := 0 }
          (Sample.constant .null)) 0
        Sample.background (Sample.settings false "throw new Error(\"boom\")") = .ret r ∧
      r.err = some (.wrapf ("failed to evaluate promise: " ++
        (GoError.foreign 4 "Error: boom").Error) (.foreign 4 "Error: boom")) ∧
      r.h.handler = Component.Instance.handler ∧ r.h.runtime = Component.Instance.runtime ∧
      r.h.settings = Component.Instance.settings :=
  init_rejected_evaluation
    (Sample.env { val := (.Rejected, .goError (.foreign 4 "Error: boom")), millis := 0 }
      (Sample.constant .null)) 0
    Component.Instance Sample.background (Sample.settings false "throw new Error(\"boom\")")
    "throw new Error(\"boom\")" { addr := 100 }
    { addr := 1, vubox := some (NewModuleVU (Sample.background.WithTimeout 0 15000)
      { addr := 1, vubox := none }) }
    (.goError (.foreign 4 "Error: boom")) (.foreign 4 "Error: boom")
    (by decide) rfl rfl rfl rfl rfl rfl

end JsModule
